import Mathlib

/-!
Verification of the report-parsing logic of PurePlateBharath
(`analyzeFood` in `src/index.tsx`, lines 102–153).

Strings are modelled as `List Char`.  The JavaScript regular-expression
searches used by the code are all of a simple leftmost-substring kind and
are embedded as explicit recursive functions:

* `new RegExp(key ++ ":\\s*(.*)", 'i')`  — `extractValue`
* `/SUMMARY:\s*([\s\S]*?)(?=HEALTH_SCORE|FSSAI_NOTICE|LIST_START|$)/i` — `summaryOf`
* `/FSSAI_NOTICE:\s*([\s\S]*?)(?=LIST_START|$)/i` — `fssaiCapture`
* `/LIST_START([\s\S]*?)LIST_END/i` — `listSpan`
* `/^[-*•\d.]\s*/` — `cleanRow`

JavaScript `\s` (the full Unicode whitespace class used by `\s`, `trim()`
and `parseInt`) is `jsSpace`; the line terminators excluded by `.` are
`jsLineTerm`.
-/

set_option maxRecDepth 8000

namespace PPB

/-- The JavaScript `\s` / `trim()` / `parseInt` whitespace class. -/
def jsSpace (c : Char) : Bool :=
  c.toNat == 32 || c.toNat == 9 || c.toNat == 10 || c.toNat == 13 ||
  c.toNat == 11 || c.toNat == 12 || c.toNat == 160 || c.toNat == 5760 ||
  (decide (8192 ≤ c.toNat) && decide (c.toNat ≤ 8202)) ||
  c.toNat == 8232 || c.toNat == 8233 || c.toNat == 8239 ||
  c.toNat == 8287 || c.toNat == 12288 || c.toNat == 65279

/-- The JavaScript line terminators, which `.` in a regex does not match. -/
def jsLineTerm (c : Char) : Bool :=
  c.toNat == 10 || c.toNat == 13 || c.toNat == 8232 || c.toNat == 8233

/-- `String.prototype.toLowerCase` (ASCII-relevant part), char-wise. -/
def lowerL (s : List Char) : List Char := s.map Char.toLower

/-- `String.prototype.trim`. -/
def trimL (s : List Char) : List Char :=
  ((s.dropWhile jsSpace).reverse.dropWhile jsSpace).reverse

/-- `String.prototype.split` with a single-character separator. -/
def splitOnChar (sep : Char) : List Char → List (List Char)
  | [] => [[]]
  | c :: tl =>
      match splitOnChar sep tl with
      | [] => if c == sep then [[], []] else [[c]]
      | h :: t => if c == sep then [] :: h :: t else (c :: h) :: t

/-- Index of the leftmost (case-sensitive) occurrence of `pat`,
    as in `String.prototype.indexOf`. -/
def idxOf (pat : List Char) : List Char → Option Nat
  | [] => if pat.isEmpty then some 0 else none
  | c :: tl => if pat.isPrefixOf (c :: tl) then some 0 else (idxOf pat tl).map (· + 1)

/-- `String.prototype.includes` (case-sensitive containment). -/
def includes (s pat : List Char) : Bool := (idxOf pat s).isSome

/-- Leftmost occurrence of `pat` in `s`, case-insensitively (a regex
    search under the `i` flag).  `Char.toLower` preserves length, so the
    returned index is also valid in the original `s`. -/
def findCI (pat s : List Char) : Option Nat := idxOf (lowerL pat) (lowerL s)

/-- Does `s` start with the (already lower-cased) marker `m`,
    comparing case-insensitively? -/
def ciStarts : List Char → List Char → Bool
  | [], _ => true
  | _ :: _, [] => false
  | p :: ps, c :: cs => p == c.toLower && ciStarts ps cs

/-- The lazy capture `([\s\S]*?)` followed by a lookahead
    `(?=marker1|…|$)` under the `i` flag: take characters until some
    (lower-cased) marker starts at the current position, or the end of
    the text. -/
def takeUntilMarker (markers : List (List Char)) : List Char → List Char
  | [] => []
  | c :: tl =>
      if markers.any (fun m => ciStarts m (c :: tl)) then []
      else c :: takeUntilMarker markers tl

/-- `extractValue` (src/index.tsx lines 109–113):
    `text.match(new RegExp(key ++ ":\\s*(.*)", 'i'))`, then
    `match[1].trim()`, or `null` when there is no match.
    `\s*` is greedy (and crosses newlines); `(.*)` runs to the end of
    the line. -/
def extractValue (text key : List Char) : Option (List Char) :=
  match findCI (key ++ [':']) text with
  | none => none
  | some i =>
      let afterKey := (text.drop (i + key.length + 1)).dropWhile jsSpace
      some (trimL (afterKey.takeWhile (fun c => !(jsLineTerm c))))

/-- The span-capturing regexes of the form
    `/KEY:\s*([\s\S]*?)(?=M1|…|$)/i` (src/index.tsx lines 119 and 122):
    the capture group, un-trimmed, or `none` when `KEY:` does not occur. -/
def spanCapture (text key : List Char) (markersLow : List (List Char)) :
    Option (List Char) :=
  match findCI (key ++ [':']) text with
  | none => none
  | some i =>
      some (takeUntilMarker markersLow
        ((text.drop (i + key.length + 1)).dropWhile jsSpace))

/-- `summary` (src/index.tsx lines 104, 119–120): initialised to
    "Analysis complete.", replaced by the trimmed SUMMARY capture when
    the regex matches. -/
def summaryOf (text : List Char) : List Char :=
  match spanCapture text "SUMMARY".data
      ["health_score".data, "fssai_notice".data, "list_start".data] with
  | none => "Analysis complete.".data
  | some cap => trimL cap

/-- The capture group of `/FSSAI_NOTICE:\s*([\s\S]*?)(?=LIST_START|$)/i`
    (src/index.tsx line 122). -/
def fssaiCapture (text : List Char) : Option (List Char) :=
  spanCapture text "FSSAI_NOTICE".data ["list_start".data]

/-- `fssaiNotice` (src/index.tsx lines 105, 122–125): initialised to "",
    set to the trimmed capture only when the regex matched and the
    lower-cased capture does not contain "none". -/
def fssaiNoticeOf (text : List Char) : List Char :=
  match fssaiCapture text with
  | none => []
  | some cap => if includes (lowerL cap) "none".data then [] else trimL cap

/-- The capture group of `/LIST_START([\s\S]*?)LIST_END/i`
    (src/index.tsx line 127). -/
def listSpan (text : List Char) : Option (List Char) :=
  match findCI "LIST_START".data text with
  | none => none
  | some i =>
      let rest := text.drop (i + "LIST_START".data.length)
      match findCI "LIST_END".data rest with
      | none => none
      | some j => some (rest.take j)

/-- `rows` (src/index.tsx line 128):
    `listMatch ? listMatch[1].trim().split('\n') : []`. -/
def rowsOf (text : List Char) : List (List Char) :=
  match listSpan text with
  | none => []
  | some cap => splitOnChar '\n' (trimL cap)

/-- The character class `[-*•\d.]` of the row-cleaning regex
    (src/index.tsx line 131). -/
def isMarkerChar (c : Char) : Bool :=
  c == '-' || c == '*' || c == '•' || c.isDigit || c == '.'

/-- `cleanRow` (src/index.tsx line 131):
    `row.replace(/^[-*•\d.]\s*/, '').trim()`.  The regex matches one
    character of the class followed by a whitespace run, anchored at the
    start; `replace` removes the first match only. -/
def cleanRow (row : List Char) : List Char :=
  trimL (match row with
    | [] => []
    | c :: tl => if isMarkerChar c then tl.dropWhile jsSpace else c :: tl)

/-- The three-way ingredient status (src/index.tsx lines 24, 136). -/
inductive Status where
  | healthy
  | harmful
  | neutral
deriving DecidableEq

/-- The status classifier (src/index.tsx lines 135–138):
    `statusRaw = parts[2].toLowerCase()`, then keyword containment in
    precedence order, defaulting to `neutral`. -/
def classify (src : List Char) : Status :=
  let statusRaw := lowerL src
  if includes statusRaw "harmful".data || includes statusRaw "bad".data ||
     includes statusRaw "danger".data || includes statusRaw "concern".data then
    .harmful
  else if includes statusRaw "healthy".data || includes statusRaw "good".data ||
          includes statusRaw "safe".data then
    .healthy
  else
    .neutral

/-- `Ingredient` (src/index.tsx lines 21–26). -/
structure Ingredient where
  name : List Char
  quantity : List Char
  status : Status
  description : List Char
deriving DecidableEq

/-- The fixed placeholder description (src/index.tsx line 144). -/
def defaultDescription : List Char := "Major component found in product label.".data

/-- The row acceptance and field mapping (src/index.tsx lines 134–145),
    applied to the trimmed pipe-split fields: accept only with at least
    3 fields; `parts[1] || "N/A"` and `parts[3] || default` treat a
    missing or empty field alike. -/
def parseFields : List (List Char) → Option Ingredient
  | f0 :: f1 :: f2 :: rest =>
      some { name := f0
             quantity := if f1.isEmpty then "N/A".data else f1
             status := classify f2
             description :=
               match rest with
               | [] => defaultDescription
               | f3 :: _ => if f3.isEmpty then defaultDescription else f3 }
  | _ => none

/-- One loop iteration of src/index.tsx lines 130–146:
    `cleanRow`, split on `'|'`, trim each field, then accept or discard. -/
def parseRow (row : List Char) : Option Ingredient :=
  parseFields ((splitOnChar '|' (cleanRow row)).map trimL)

/-- Hexadecimal digit test used by `parseInt` with an `0x` prefix. -/
def isHexDigitChar (c : Char) : Bool :=
  c.isDigit || (decide (97 ≤ c.toNat) && decide (c.toNat ≤ 102)) ||
  (decide (65 ≤ c.toNat) && decide (c.toNat ≤ 70))

/-- Numeric value of a hexadecimal digit. -/
def hexVal (c : Char) : Nat :=
  if c.isDigit then c.toNat - 48
  else if decide (97 ≤ c.toNat) && decide (c.toNat ≤ 102) then c.toNat - 87
  else c.toNat - 55

/-- Value of a digit string in the given base. -/
def digitsVal (base : Nat) (ds : List Char) : Nat :=
  ds.foldl (fun a c => a * base + hexVal c) 0

/-- JavaScript `parseInt(s)` (no radix argument): skip whitespace, one
    optional sign, then either `0x`/`0X`-prefixed hexadecimal digits or
    decimal digits, taking the longest digit prefix; `NaN` (here `none`)
    when no digit follows. -/
def jsParseInt (s : List Char) : Option Int :=
  let cs := s.dropWhile jsSpace
  let sign : Int := if cs.head? == some '-' then -1 else 1
  let cs := if cs.head? == some '-' || cs.head? == some '+' then cs.tail else cs
  let hex : Bool :=
    match cs with
    | '0' :: x :: _ => x == 'x' || x == 'X'
    | _ => false
  if hex then
    let ds := (cs.drop 2).takeWhile isHexDigitChar
    if ds.isEmpty then none else some (sign * Int.ofNat (digitsVal 16 ds))
  else
    let ds := cs.takeWhile Char.isDigit
    if ds.isEmpty then none else some (sign * Int.ofNat (digitsVal 10 ds))

/-- `healthScore` (src/index.tsx lines 106, 116–117):
    `parseInt(extractValue("HEALTH_SCORE") || "50")`, then
    `isNaN(parsedScore) ? 50 : parsedScore`.  Both a `null` and an empty
    extracted value are falsy and fall back to the string "50". -/
def healthScoreOf (text : List Char) : Int :=
  let raw := (extractValue text "HEALTH_SCORE".data).getD []
  let rawOr := if raw.isEmpty then "50".data else raw
  (jsParseInt rawOr).getD 50

/-- `productName` (src/index.tsx lines 103, 115):
    `extractValue("PRODUCT") || query` (an empty extract is falsy). -/
def productNameOf (text query : List Char) : List Char :=
  let v := (extractValue text "PRODUCT".data).getD []
  if v.isEmpty then query else v

/-- A grounding citation's web reference (src/index.tsx lines 32, 95–100). -/
structure WebRef where
  title : List Char
  uri : List Char
deriving DecidableEq

/-- A raw grounding chunk: `{ web?: { title, uri } }`. -/
structure GroundingChunk where
  web : Option WebRef
deriving DecidableEq

/-- `sources` (src/index.tsx lines 95–100): keep chunks with a `web`
    reference, in order, projecting title and uri. -/
def parseSources (chunks : List GroundingChunk) : List WebRef :=
  chunks.filterMap GroundingChunk.web

/-- `AnalysisResult` (src/index.tsx lines 28–35).  `fssaiNotice` and
    `healthScore` are optional in the TypeScript interface, hence
    `Option` here; what `analyzeFood` actually passes to `setResult` is
    the subject of claims about their presence. -/
structure AnalysisResult where
  productName : List Char
  summary : List Char
  ingredients : List Ingredient
  sources : List WebRef
  fssaiNotice : Option (List Char)
  healthScore : Option Int
deriving DecidableEq

/-- The parse failure (src/index.tsx lines 149–151): the `ExtractionError`
    of the specification. -/
inductive ParseError where
  | extractionError (msg : String)
deriving DecidableEq

/-- The parsing logic of `analyzeFood` (src/index.tsx lines 102–153), the
    `ReportParser.parse` of the specification: throw when zero ingredient
    rows were accepted, otherwise build the result passed to `setResult`. -/
def parse (text query : List Char) (citations : List GroundingChunk) :
    Except ParseError AnalysisResult :=
  if ((rowsOf text).filterMap parseRow).length == 0 then
    .error (.extractionError
      "Ingredient list could not be parsed. Please verify the product name.")
  else
    .ok { productName := productNameOf text query
          summary := summaryOf text
          ingredients := (rowsOf text).filterMap parseRow
          sources := parseSources citations
          fssaiNotice := some (fssaiNoticeOf text)
          healthScore := some (healthScoreOf text) }

/-- The renderer's notion of carrying a notice (src/index.tsx line 308):
    `result.fssaiNotice && …` — both `undefined` and `""` are falsy. -/
def AnalysisResult.hasNotice (r : AnalysisResult) : Bool :=
  match r.fssaiNotice with
  | none => false
  | some s => !s.isEmpty

/-- Successful parses, as an `Option`. -/
def parsed (text query : List Char) (citations : List GroundingChunk) :
    Option AnalysisResult :=
  match parse text query citations with
  | .ok r => some r
  | .error _ => none

/-! ### Concrete inputs and results used by individual claims -/

/-- The end-to-end example text of the specification (§8). -/
def exampleText : List Char :=
  "PRODUCT: Test Snack\nSUMMARY: High in sugar.\nHEALTH_SCORE: 35\nFSSAI_NOTICE: None\nLIST_START\nSugar | 35g per 100g | harmful | Excess refined sugar\nRice Flour | 40% | healthy | Whole grain base\nLIST_END".data

/-- The ingredient produced by the minimal table row `A | B | C`. -/
def abcIngredient : Ingredient :=
  { name := "A".data
    quantity := "B".data
    status := .neutral
    description := defaultDescription }

/-- A text whose score is out of the claimed range. -/
def bigScoreText : List Char :=
  "HEALTH_SCORE: 150\nLIST_START\nA | B | C\nLIST_END".data

/-- A well-formed text with score 80. -/
def score80Text : List Char :=
  "HEALTH_SCORE: 80\nLIST_START\nA | B | C\nLIST_END".data

/-- The result of parsing `score80Text` with query "q". -/
def score80Result : AnalysisResult :=
  { productName := "q".data
    summary := "Analysis complete.".data
    ingredients := [abcIngredient]
    sources := []
    fssaiNotice := some []
    healthScore := some 80 }

/-- A table row whose fourth pipe-delimited field is present but empty. -/
def rowWithEmptyFourthField : List Char := "Sugar | 10g | harmful |".data

/-- A text whose only table row has an empty fourth field. -/
def textWithEmptyFourthField : List Char :=
  "LIST_START\nSugar | 10g | harmful |\nLIST_END".data

/-- A text mixing a malformed (pipe-less) row with a valid one. -/
def textWithMalformedRow : List Char :=
  "LIST_START\nnot a table row\nA | B | C\nLIST_END".data

/-- A text whose only table row has exactly three fields. -/
def textWithThreeFieldRow : List Char :=
  "LIST_START\nSugar | 10g | harmful\nLIST_END".data

/-- A full four-field row. -/
def rowFourFields : List Char := "Sugar | 10g | harmful | Too much".data

/-- The ingredient produced by `rowFourFields`. -/
def ingFourFields : Ingredient :=
  { name := "Sugar".data
    quantity := "10g".data
    status := .harmful
    description := "Too much".data }

/-- A well-formed text whose HEALTH_SCORE value is not numeric. -/
def scoreFallbackText : List Char :=
  "HEALTH_SCORE: abc\nLIST_START\nA | B | C\nLIST_END".data

/-- The result of parsing `scoreFallbackText` with query "q". -/
def scoreFallbackResult : AnalysisResult :=
  { productName := "q".data
    summary := "Analysis complete.".data
    ingredients := [abcIngredient]
    sources := []
    fssaiNotice := some []
    healthScore := some 50 }

/-- A text whose FSSAI_NOTICE span is present but captures nothing. -/
def emptyNoticeText : List Char :=
  "FSSAI_NOTICE:\nLIST_START\nA | B | C\nLIST_END".data

/-- `FSSAI_NOTICE: None`. -/
def noticeNoneText : List Char :=
  "FSSAI_NOTICE: None\nLIST_START\nA | B | C\nLIST_END".data

/-- `FSSAI_NOTICE: none detected`. -/
def noticeNoneDetectedText : List Char :=
  "FSSAI_NOTICE: none detected\nLIST_START\nA | B | C\nLIST_END".data

/-- `FSSAI_NOTICE: Contains banned dye X`. -/
def noticeDyeText : List Char :=
  "FSSAI_NOTICE: Contains banned dye X\nLIST_START\nA | B | C\nLIST_END".data

/-- The result of parsing `noticeDyeText` with query "q". -/
def noticeDyeResult : AnalysisResult :=
  { productName := "q".data
    summary := "Analysis complete.".data
    ingredients := [abcIngredient]
    sources := []
    fssaiNotice := some "Contains banned dye X".data
    healthScore := some 50 }

/-- A text in which "PRODUCT:" occurs only as the suffix of a longer
word, mid-line. -/
def embeddedKeyText : List Char :=
  "THE BYPRODUCT: Waste\nLIST_START\nA | B | C\nLIST_END".data

/-- A table row with a single-digit ordinal marker. -/
def ordinalRowText : List Char :=
  "LIST_START\n1. Sugar | 10g | harmful | Excess\nLIST_END".data

/-- A table row with a two-digit ordinal marker. -/
def twoDigitOrdinalRowText : List Char :=
  "LIST_START\n12. Sugar | 10g | harmful | Excess\nLIST_END".data

/-- A text whose FSSAI_NOTICE capture contains the word "none". -/
def noneFoundText : List Char :=
  "FSSAI_NOTICE: none found\nLIST_START\nA | B | C\nLIST_END".data

/-- The result of parsing `noneFoundText` with query "q". -/
def noneFoundResult : AnalysisResult :=
  { productName := "q".data
    summary := "Analysis complete.".data
    ingredients := [abcIngredient]
    sources := []
    fssaiNotice := some []
    healthScore := some 50 }

/-! ### General lemmas about the embedded parser -/

theorem parseFields_eq_none (ps : List (List Char)) :
    parseFields ps = none ↔ ps.length < 3 := by
  rcases ps with _ | ⟨a, _ | ⟨b, _ | ⟨c, r⟩⟩⟩ <;> simp [parseFields]

theorem parseRow_eq_none (row : List Char) :
    parseRow row = none ↔ (splitOnChar '|' (cleanRow row)).length < 3 := by
  rw [parseRow, parseFields_eq_none, List.length_map]

theorem parse_error_iff (t q : List Char) (c : List GroundingChunk) :
    (∃ e, parse t q c = .error e) ↔ (rowsOf t).filterMap parseRow = [] := by
  by_cases h : (rowsOf t).filterMap parseRow = [] <;>
    simp [parse, beq_iff_eq, List.length_eq_zero, h]

theorem parse_ok_iff (t q : List Char) (c : List GroundingChunk)
    (r : AnalysisResult) :
    parse t q c = .ok r ↔
      ((rowsOf t).filterMap parseRow ≠ [] ∧
       r = { productName := productNameOf t q
             summary := summaryOf t
             ingredients := (rowsOf t).filterMap parseRow
             sources := parseSources c
             fssaiNotice := some (fssaiNoticeOf t)
             healthScore := some (healthScoreOf t) }) := by
  by_cases h : (rowsOf t).filterMap parseRow = []
  · have hc : (((rowsOf t).filterMap parseRow).length == 0) = true := by
      simp [beq_iff_eq, List.length_eq_zero, h]
    rw [parse, if_pos hc]
    simp [h]
  · have hc : (((rowsOf t).filterMap parseRow).length == 0) = false := by
      simp [beq_iff_eq, List.length_eq_zero, h]
    rw [parse, if_neg (by simp [hc])]
    constructor
    · intro hok
      exact ⟨h, (Except.ok.inj hok).symm⟩
    · rintro ⟨-, rfl⟩
      rfl

/-! ### Claim theorems -/

/-- C1: for every input text, query and citation list, `parse` fails (with
the `ExtractionError` message) exactly when no line in the span between
`LIST_START` and `LIST_END` splits into at least 3 pipe-delimited fields;
in particular a text `LIST_START\nLIST_END` (empty table) fails, a text
with all scalar fields recovered but an empty table fails, and a text
with no `LIST_START` marker fails.  On failure the `Except.error` value
carries nothing but the message, so no partial result is produced. -/
theorem c1_parse_fails_iff_no_rows :
    (∀ (text query : List Char) (cites : List GroundingChunk),
        (∃ e, parse text query cites = .error e) ↔
          ∀ row ∈ rowsOf text, (splitOnChar '|' (cleanRow row)).length < 3) ∧
    (∀ (query : List Char) (cites : List GroundingChunk),
        parse "LIST_START\nLIST_END".data query cites =
          .error (.extractionError
            "Ingredient list could not be parsed. Please verify the product name.")) ∧
    (∀ (query : List Char) (cites : List GroundingChunk),
        parse "PRODUCT: Maggi\nSUMMARY: Salty.\nHEALTH_SCORE: 40\nFSSAI_NOTICE: Alert\nLIST_START\nLIST_END".data
            query cites =
          .error (.extractionError
            "Ingredient list could not be parsed. Please verify the product name.")) ∧
    (∀ (query : List Char) (cites : List GroundingChunk),
        parse "PRODUCT: Maggi\nHEALTH_SCORE: 40".data query cites =
          .error (.extractionError
            "Ingredient list could not be parsed. Please verify the product name.")) := by
  refine ⟨?_, fun _ _ => rfl, fun _ _ => rfl, fun _ _ => rfl⟩
  intro t q c
  rw [parse_error_iff, List.filterMap_eq_nil_iff]
  constructor
  · intro h row hrow
    exact (parseRow_eq_none row).mp (h row hrow)
  · intro h row hrow
    exact (parseRow_eq_none row).mpr (h row hrow)

/-- C2 counterexample: on the example text the claim's "fssaiNotice
absent" is false as stated — the parse succeeds but the `fssaiNotice`
field is present (it holds the empty string), not absent. -/
theorem c2_fssai_not_absent :
    (parsed exampleText "AnyQuery".data []).map
        (fun r => r.fssaiNotice.isSome) = some true := rfl

/-- C2 (amended): on the example text, for every query and citation
list, the parse succeeds with `productName = "Test Snack"`,
`healthScore = 35`, an `fssaiNotice` carrying no notice (the field holds
the empty string, the code's no-notice representation, rather than being
absent), and exactly two ingredients whose statuses are `harmful` and
`healthy` in that order. -/
theorem c2_example_parse :
    ∀ (query : List Char) (cites : List GroundingChunk), ∃ r,
      parse exampleText query cites = .ok r ∧
      r.productName = "Test Snack".data ∧
      r.healthScore = some 35 ∧
      r.fssaiNotice = some [] ∧
      r.hasNotice = false ∧
      r.ingredients.map Ingredient.status = [Status.harmful, Status.healthy] ∧
      r.ingredients.length = 2 := by
  intro q c
  exact ⟨_, rfl, rfl, rfl, rfl, rfl, rfl, rfl⟩

/-- C3: the status classifier lower-cases its input and returns
`harmful` exactly when the result contains one of
"harmful"/"bad"/"danger"/"concern", else `healthy` exactly when it
contains one of "healthy"/"good"/"safe", else `neutral`; harmful
keywords take precedence ("harmful but safe" is `harmful`), "Danger"
classifies as `harmful`, and a text with none of the seven keywords is
`neutral`. -/
theorem c3_classifier :
    (∀ src : List Char,
      (classify src = .harmful ↔
        (includes (lowerL src) "harmful".data || includes (lowerL src) "bad".data ||
         includes (lowerL src) "danger".data || includes (lowerL src) "concern".data) = true) ∧
      (classify src = .healthy ↔
        ((includes (lowerL src) "harmful".data || includes (lowerL src) "bad".data ||
          includes (lowerL src) "danger".data || includes (lowerL src) "concern".data) = false ∧
         (includes (lowerL src) "healthy".data || includes (lowerL src) "good".data ||
          includes (lowerL src) "safe".data) = true)) ∧
      (classify src = .neutral ↔
        ((includes (lowerL src) "harmful".data || includes (lowerL src) "bad".data ||
          includes (lowerL src) "danger".data || includes (lowerL src) "concern".data) = false ∧
         (includes (lowerL src) "healthy".data || includes (lowerL src) "good".data ||
          includes (lowerL src) "safe".data) = false))) ∧
    classify "harmful".data = .harmful ∧
    classify "Danger".data = .harmful ∧
    classify "harmful but safe".data = .harmful ∧
    classify "considered safe".data = .healthy ∧
    classify "xyz".data = .neutral := by
  refine ⟨?_, by decide, by decide, by decide, by decide, by decide⟩
  intro src
  rcases hh : (includes (lowerL src) "harmful".data || includes (lowerL src) "bad".data ||
      includes (lowerL src) "danger".data || includes (lowerL src) "concern".data) with _ | _ <;>
    rcases hl : (includes (lowerL src) "healthy".data || includes (lowerL src) "good".data ||
        includes (lowerL src) "safe".data) with _ | _ <;>
      simp [classify, hh, hl]

/-- C4 counterexample: on a text declaring `HEALTH_SCORE: 150` the parse
succeeds and the returned `healthScore` is 150, outside the claimed
range [0, 100] — the default is not a clamp. -/
theorem c4_score_out_of_range :
    (parsed bigScoreText "q".data []).map AnalysisResult.healthScore =
      some (some 150) ∧
    ¬((150 : Int) ≤ 100) := ⟨rfl, by decide⟩

/-- C4 (amended): on every successful parse the returned `ingredients`
list is non-empty and `healthScore` is the integer computed by the
score extraction (defaulting to 50) — but that integer is not clamped
to [0, 100]. -/
theorem c4_success_invariants :
    ∀ (t q : List Char) (c : List GroundingChunk) (r : AnalysisResult),
      parse t q c = .ok r →
      r.ingredients ≠ [] ∧ r.healthScore = some (healthScoreOf t) := by
  intro t q c r h
  obtain ⟨hne, rfl⟩ := (parse_ok_iff t q c r).mp h
  exact ⟨hne, rfl⟩

theorem c4_success_invariants_witness :
    score80Result.ingredients ≠ [] ∧
    score80Result.healthScore = some (healthScoreOf score80Text) :=
  c4_success_invariants score80Text "q".data [] score80Result (by rfl)

/-- C5 counterexample: a row with a present-but-empty fourth field
("Sugar | 10g | harmful |") does not map field 3 to the description —
the fixed placeholder is substituted, although the fourth field exists. -/
theorem c5_empty_fourth_field_gets_placeholder :
    ((splitOnChar '|' (cleanRow rowWithEmptyFourthField)).map trimL).length = 4 ∧
    ((splitOnChar '|' (cleanRow rowWithEmptyFourthField)).map trimL).getD 3 "x".data = [] ∧
    (parsed textWithEmptyFourthField "q".data []).map
        (fun r => r.ingredients.map Ingredient.description) = some [defaultDescription] ∧
    defaultDescription ≠ [] := ⟨rfl, rfl, rfl, by decide⟩

/-- C5 (amended): a line is accepted as an ingredient row iff splitting
it on `|` yields at least 3 trimmed fields; an accepted row maps field 0
to name, field 1 to quantity (substituting "N/A" when empty), field 2 to
the status source, and field 3 to description, substituting the fixed
placeholder when the fourth field is missing or empty; rows with fewer
than 3 fields are silently discarded without aborting the parse; a
three-field row yields a present quantity and the placeholder
description. -/
theorem c5_row_law :
    (∀ row : List Char,
        (parseRow row).isSome = true ↔ 3 ≤ (splitOnChar '|' (cleanRow row)).length) ∧
    (∀ (row : List Char) (ing : Ingredient), parseRow row = some ing →
        ing.name = ((splitOnChar '|' (cleanRow row)).map trimL).getD 0 [] ∧
        ing.quantity =
          (if (((splitOnChar '|' (cleanRow row)).map trimL).getD 1 []).isEmpty
           then "N/A".data
           else ((splitOnChar '|' (cleanRow row)).map trimL).getD 1 []) ∧
        ing.status = classify (((splitOnChar '|' (cleanRow row)).map trimL).getD 2 []) ∧
        ing.description =
          (if (((splitOnChar '|' (cleanRow row)).map trimL).getD 3 []).isEmpty
           then defaultDescription
           else ((splitOnChar '|' (cleanRow row)).map trimL).getD 3 [])) ∧
    (parsed textWithMalformedRow "q".data []).map (fun r => r.ingredients.length) =
      some 1 ∧
    (parsed textWithThreeFieldRow "q".data []).map
        (fun r => r.ingredients.map (fun i => (i.quantity, i.description))) =
      some [("10g".data, defaultDescription)] := by
  refine ⟨?_, ?_, rfl, rfl⟩
  · intro row
    rw [Option.isSome_iff_ne_none, Ne, parseRow_eq_none, Nat.not_lt]
  · intro row ing h
    rw [parseRow] at h
    rcases hps : (splitOnChar '|' (cleanRow row)).map trimL with
        _ | ⟨f0, _ | ⟨f1, _ | ⟨f2, rest⟩⟩⟩ <;>
      rw [hps] at h <;> simp [parseFields] at h
    subst h
    rcases rest with _ | ⟨f3, rest'⟩ <;> simp [hps, List.getD]

theorem c5_row_law_witness :
    ingFourFields.name =
      ((splitOnChar '|' (cleanRow rowFourFields)).map trimL).getD 0 [] ∧
    ingFourFields.quantity =
      (if (((splitOnChar '|' (cleanRow rowFourFields)).map trimL).getD 1 []).isEmpty
       then "N/A".data
       else ((splitOnChar '|' (cleanRow rowFourFields)).map trimL).getD 1 []) ∧
    ingFourFields.status =
      classify (((splitOnChar '|' (cleanRow rowFourFields)).map trimL).getD 2 []) ∧
    ingFourFields.description =
      (if (((splitOnChar '|' (cleanRow rowFourFields)).map trimL).getD 3 []).isEmpty
       then defaultDescription
       else ((splitOnChar '|' (cleanRow rowFourFields)).map trimL).getD 3 []) :=
  c5_row_law.2.1 rowFourFields ingFourFields (by rfl)

/-- C6: whenever the HEALTH_SCORE key is absent, or present with a value
that does not parse as a number, the computed score is the neutral
default 50, and any successful parse carries `healthScore = 50`. -/
theorem c6_score_fallback :
    ∀ text : List Char,
      (extractValue text "HEALTH_SCORE".data = none ∨
       ∃ v, extractValue text "HEALTH_SCORE".data = some v ∧ jsParseInt v = none) →
      healthScoreOf text = 50 ∧
      ∀ (q : List Char) (c : List GroundingChunk) (r : AnalysisResult),
        parse text q c = .ok r → r.healthScore = some 50 := by
  intro t h
  have h50 : healthScoreOf t = 50 := by
    rcases h with h | ⟨v, hv, hp⟩
    · simp only [healthScoreOf, h, Option.getD_none]
      rfl
    · by_cases hve : v.isEmpty
      · have hvnil : v = [] := by
          cases v
          · rfl
          · simp [List.isEmpty] at hve
        subst hvnil
        simp only [healthScoreOf, hv, Option.getD_some]
        rfl
      · simp only [healthScoreOf, hv, Option.getD_some, hve,
          Bool.false_eq_true, if_false, hp, Option.getD_none]
  refine ⟨h50, ?_⟩
  intro q c r hr
  obtain ⟨-, rfl⟩ := (parse_ok_iff t q c r).mp hr
  simp [h50]

theorem c6_score_fallback_witness :
    healthScoreOf scoreFallbackText = 50 ∧
    scoreFallbackResult.healthScore = some 50 :=
  ⟨(c6_score_fallback scoreFallbackText (Or.inr ⟨"abc".data, rfl, rfl⟩)).1,
   (c6_score_fallback scoreFallbackText (Or.inr ⟨"abc".data, rfl, rfl⟩)).2
     "q".data [] scoreFallbackResult (by rfl)⟩

/-- C7 counterexample: a text whose FSSAI_NOTICE span is present and
whose capture does not contain "none" (the capture is empty) still
carries no notice — refuting the claimed "exactly when the span is
absent or its capture contains none". -/
theorem c7_empty_capture_no_notice :
    fssaiCapture emptyNoticeText = some [] ∧
    includes (lowerL []) "none".data = false ∧
    (parsed emptyNoticeText "q".data []).map AnalysisResult.hasNotice = some false ∧
    (parsed emptyNoticeText "q".data []).map AnalysisResult.fssaiNotice =
      some (some []) := ⟨rfl, rfl, rfl, rfl⟩

/-- C7 (amended): on every successful parse, the result carries no FSSAI
notice exactly when the FSSAI_NOTICE span is absent, its captured text
case-insensitively contains "none", or the captured text trims to the
empty string; otherwise the trimmed captured text is kept as the notice.
Concretely, `FSSAI_NOTICE: None` and `FSSAI_NOTICE: none detected` yield
no notice, while `FSSAI_NOTICE: Contains banned dye X` yields the notice
"Contains banned dye X". -/
theorem c7_notice_law :
    (∀ (t q : List Char) (c : List GroundingChunk) (r : AnalysisResult),
        parse t q c = .ok r →
        ((r.hasNotice = false ↔
            (fssaiCapture t = none ∨
             ∃ cap, fssaiCapture t = some cap ∧
               (includes (lowerL cap) "none".data = true ∨ trimL cap = []))) ∧
         (∀ cap, fssaiCapture t = some cap →
            includes (lowerL cap) "none".data = false →
            r.fssaiNotice = some (trimL cap)))) ∧
    (parsed noticeNoneText "q".data []).map AnalysisResult.hasNotice = some false ∧
    (parsed noticeNoneDetectedText "q".data []).map AnalysisResult.hasNotice =
      some false ∧
    (parsed noticeDyeText "q".data []).map AnalysisResult.fssaiNotice =
      some (some "Contains banned dye X".data) := by
  refine ⟨?_, rfl, rfl, rfl⟩
  intro t q c r hr
  obtain ⟨-, rfl⟩ := (parse_ok_iff t q c r).mp hr
  constructor
  · rcases hcap : fssaiCapture t with _ | cap
    · simp [AnalysisResult.hasNotice, fssaiNoticeOf, hcap]
    · rcases hinc : includes (lowerL cap) "none".data with _ | _
      · simp [AnalysisResult.hasNotice, fssaiNoticeOf, hcap, hinc, List.isEmpty_iff]
      · simp [AnalysisResult.hasNotice, fssaiNoticeOf, hcap, hinc]
  · intro cap hcap hinc
    simp [fssaiNoticeOf, hcap, hinc]

theorem c7_notice_law_witness :
    noticeDyeResult.fssaiNotice = some (trimL "Contains banned dye X\n".data) :=
  (c7_notice_law.1 noticeDyeText "q".data [] noticeDyeResult (by rfl)).2
    "Contains banned dye X\n".data rfl rfl

/-- C8 counterexample: an occurrence of "PRODUCT:" that is mid-line and
the suffix of the longer word "BYPRODUCT:" does supply the value — the
extraction is not line-anchored, and the parse takes the product name
from it instead of falling back to the query. -/
theorem c8_embedded_key_supplies_value :
    extractValue "THE BYPRODUCT: Waste".data "PRODUCT".data = some "Waste".data ∧
    (parsed embeddedKeyText "MyQuery".data []).map AnalysisResult.productName =
      some "Waste".data ∧
    "Waste".data ≠ "MyQuery".data := ⟨rfl, rfl, by decide⟩

/-- C8 (amended): for each key, scalar extraction succeeds exactly when
`KEY:` occurs anywhere in the text (case-insensitively, not only at the
start of a line), and returns the trimmed remainder of the line from the
first such occurrence; line-anchored occurrences are the common case and
extract as expected. -/
theorem c8_extract_first_occurrence_anywhere :
    (∀ text key : List Char,
        (extractValue text key).isSome = true ↔
          (findCI (key ++ [':']) text).isSome = true) ∧
    extractValue "X: 1\nPRODUCT: Foo\nY: 2".data "PRODUCT".data = some "Foo".data ∧
    extractValue "product: lower case works".data "PRODUCT".data =
      some "lower case works".data ∧
    extractValue "no such key here".data "PRODUCT".data = none ∧
    extractValue "HEALTH_SCORE:    42  ".data "HEALTH_SCORE".data = some "42".data := by
  refine ⟨?_, rfl, rfl, rfl, rfl⟩
  intro text key
  rcases h : findCI (key ++ [':']) text with _ | i <;> simp [extractValue, h]

/-- C9 (code bug): the row-cleaning regex `/^[-*•\d.]\s*/` strips only a
single marker character, so a numeric ordinal followed by a dot is NOT
stripped: "1. Sugar | …" yields the name ". Sugar" and "12. Sugar | …"
yields "2. Sugar", while single bullet characters ("-", "•") are
stripped as intended. -/
theorem c9_ordinal_not_stripped :
    (parsed ordinalRowText "q".data []).map
        (fun r => r.ingredients.map Ingredient.name) = some [". Sugar".data] ∧
    (parsed twoDigitOrdinalRowText "q".data []).map
        (fun r => r.ingredients.map Ingredient.name) = some ["2. Sugar".data] ∧
    cleanRow "- Sugar | 10g | harmful".data = "Sugar | 10g | harmful".data ∧
    cleanRow "• Sugar | 10g | harmful".data = "Sugar | 10g | harmful".data ∧
    cleanRow "1. Sugar | 10g | harmful".data = ". Sugar | 10g | harmful".data :=
  ⟨rfl, rfl, rfl, rfl, rfl⟩

/-- C10: on every successful parse the `fssaiNotice` field is present
(never `undefined`): it is exactly `some` of the computed notice string,
with the empty string — not absence — representing "no notice", which is
what the renderer's truthiness test distinguishes. -/
theorem c10_notice_always_present :
    ∀ (t q : List Char) (c : List GroundingChunk) (r : AnalysisResult),
      parse t q c = .ok r →
      r.fssaiNotice.isSome = true ∧
      r.fssaiNotice = some (fssaiNoticeOf t) ∧
      (r.hasNotice = false ↔ r.fssaiNotice = some []) := by
  intro t q c r hr
  obtain ⟨-, rfl⟩ := (parse_ok_iff t q c r).mp hr
  refine ⟨rfl, rfl, ?_⟩
  simp [AnalysisResult.hasNotice, List.isEmpty_iff]

theorem c10_notice_always_present_witness :
    noneFoundResult.fssaiNotice.isSome = true ∧
    noneFoundResult.fssaiNotice = some (fssaiNoticeOf noneFoundText) ∧
    (noneFoundResult.hasNotice = false ↔ noneFoundResult.fssaiNotice = some []) :=
  c10_notice_always_present noneFoundText "q".data [] noneFoundResult (by rfl)

end PPB
